import Mathlib

/-!
Verification of the trading core of ULTRA-ROBOT-MARKET-MAKER-IA.

Shallow embedding of the Python source into Lean 4. Python floats are
modelled by the rationals; quantities whose Python computation is not
rational-valued (numpy standard deviation, wall-clock times, venue
latencies) are supplied as oracle inputs. Dictionaries are modelled by
association lists, `None` by `Option.none`, raised exceptions by the
explicit control paths that catch them.

Sections follow the source files:
  * src/risk_management/risk_manager.py        (RiskManager)
  * src/strategies/market_making_strategy.py   (ladder price computation)
  * src/strategies/statistical_arbitrage_strategy.py (z-score, stop-loss)
  * src/execution/order_executor.py            (place_order, cancel_order)
-/

namespace UltraMM

/-- Position table: Python dict `self.positions` as an association list.
`getPos` mirrors `self.positions.get(symbol, 0)`. -/
def getPos (ps : List (String × ℚ)) (symbol : String) : ℚ :=
  (ps.lookup symbol).getD 0

/-- Dictionary write `self.positions[symbol] = v`: replace an existing
binding in place, otherwise append a new one. -/
def setPos (ps : List (String × ℚ)) (symbol : String) (v : ℚ) : List (String × ℚ) :=
  if (ps.lookup symbol).isSome then
    ps.map (fun p => if p.1 = symbol then (p.1, v) else p)
  else
    ps ++ [(symbol, v)]

/-- The `self.risk_metrics` dict of `RiskManager.__init__` (keys
sharpe_ratio, sortino_ratio, max_drawdown, volatility, win_rate). -/
structure RiskMetrics where
  sharpe : ℚ
  sortino : ℚ
  max_drawdown : ℚ
  vol : ℚ
  win_rate : ℚ
deriving DecidableEq

/-- State of `RiskManager` (src/risk_management/risk_manager.py,
`__init__`): configuration parameters plus mutable internal state.
`has_market_data` models whether `self.market_data_manager` is not None. -/
structure RiskState where
  max_position_size : ℚ
  max_drawdown_percent : ℚ
  stop_loss_percent : ℚ
  take_profit_percent : ℚ
  max_open_orders : ℕ
  manipulation_detection_enabled : Bool
  volatility_threshold : ℚ
  volume_spike_threshold : ℚ
  spread_anomaly_threshold : ℚ
  has_market_data : Bool
  positions : List (String × ℚ)
  initial_capital : ℚ
  current_capital : ℚ
  peak_capital : ℚ
  drawdown_history : List ℚ
  daily_pnl : List ℚ
  metrics : RiskMetrics
deriving DecidableEq

/-- Fresh `RiskManager` state: `current_capital = peak_capital =
initial_capital`, empty positions and histories, zeroed metrics
(mirrors `__init__`). -/
def init_risk_state (cfg : RiskState) : RiskState :=
  { cfg with
    positions := []
    current_capital := cfg.initial_capital
    peak_capital := cfg.initial_capital
    drawdown_history := []
    daily_pnl := []
    metrics := ⟨0, 0, 0, 0, 0⟩ }

/-- `RiskManager.check_position_limit` (lines 73-95): hypothetical new
position is current + amount for a buy, current - amount otherwise;
reject when its absolute value exceeds `max_position_size`. Returns the
result together with the (unchanged) state. -/
def check_position_limit (s : RiskState) (symbol side : String) (amount : ℚ) :
    Bool × RiskState :=
  let current_position := getPos s.positions symbol
  let new_position :=
    if side = "buy" then current_position + amount else current_position - amount
  if |new_position| > s.max_position_size then (false, s) else (true, s)

/-- `RiskManager.check_drawdown_limit` (lines 97-121): early false when
`current_capital <= 0` or `peak_capital <= 0`; otherwise computes the
drawdown percentage, appends it to `drawdown_history`, raises the
`max_drawdown` metric, and compares against `max_drawdown_percent`. -/
def check_drawdown_limit (s : RiskState) : Bool × RiskState :=
  if s.current_capital ≤ 0 ∨ s.peak_capital ≤ 0 then
    (false, s)
  else
    let drawdown_percent := (1 - s.current_capital / s.peak_capital) * 100
    let s1 := { s with
      drawdown_history := s.drawdown_history ++ [drawdown_percent]
      metrics := { s.metrics with
        max_drawdown := max s.metrics.max_drawdown drawdown_percent } }
    if drawdown_percent > s.max_drawdown_percent then (false, s1) else (true, s1)

/-- `RiskManager.update_position` (lines 213-245): signed position update,
capital debit/credit of `amount*price` plus a 0.1% fee, then
`peak_capital` raised when exceeded. -/
def update_position (s : RiskState) (symbol : String) (amount price : ℚ)
    (side : String) : RiskState :=
  let current_position := getPos s.positions symbol
  let positions1 :=
    if side = "buy" then setPos s.positions symbol (current_position + amount)
    else setPos s.positions symbol (current_position - amount)
  let trade_value := amount * price
  let fee_rate : ℚ := 1 / 1000
  let fees := trade_value * fee_rate
  let current1 :=
    if side = "buy" then s.current_capital - (trade_value + fees)
    else s.current_capital + (trade_value - fees)
  let peak1 := if current1 > s.peak_capital then current1 else s.peak_capital
  { s with positions := positions1, current_capital := current1, peak_capital := peak1 }

/-- The capital block of `RiskManager.get_risk_report` (lines 341-362):
the derived `drawdown_percent` field, guarded by `peak_capital > 0`. -/
def report_drawdown_percent (s : RiskState) : ℚ :=
  if s.peak_capital > 0 then (1 - s.current_capital / s.peak_capital) * 100 else 0

/-- One candle of `market_data_manager.get_recent_candles`: only the
fields `detect_market_manipulation` reads. -/
structure Candle where
  close : ℚ
  volume : ℚ
deriving DecidableEq

/-- Market data consumed by `detect_market_manipulation`. `returns_std`
is the numpy standard deviation of the percent returns (supplied as an
oracle, since a square root is not rational-valued); `spread_info`
is `(current_spread, average_spread)` when the data manager exposes
`get_current_spread`, and `none` otherwise. -/
structure MarketView where
  recent_candles : List Candle
  returns_std : ℚ
  spread_info : Option (ℚ × ℚ)
deriving DecidableEq

/-- Percent returns `np.diff(closes) / closes[:-1] * 100`. -/
def pct_returns (closes : List ℚ) : List ℚ :=
  (closes.zip closes.tail).map (fun p => (p.2 - p.1) / p.1 * 100)

/-- Arithmetic mean of a list (`np.mean`). -/
def list_mean (xs : List ℚ) : ℚ := xs.sum / xs.length

/-- `RiskManager.detect_market_manipulation` (lines 157-211): early false
when detection is disabled or no data manager; early false on fewer than
10 candles; then the three triggers (volatility spike, volume spike,
spread anomaly) in source order. No state field is assigned anywhere in
the body, so the state is returned unchanged on every path. -/
def detect_market_manipulation (s : RiskState) (view : MarketView) :
    Bool × RiskState :=
  if ¬s.manipulation_detection_enabled ∨ ¬s.has_market_data then
    (false, s)
  else if view.recent_candles.length < 10 then
    (false, s)
  else
    let closes := view.recent_candles.map Candle.close
    let volumes := view.recent_candles.map Candle.volume
    let returns := pct_returns closes
    let volatility := view.returns_std
    if volatility > s.volatility_threshold * list_mean (returns.map (fun r => |r|)) then
      (true, s)
    else
      let avg_volume := list_mean volumes.dropLast
      if (volumes.getLast?).getD 0 > s.volume_spike_threshold * avg_volume then
        (true, s)
      else
        match view.spread_info with
        | some (current_spread, average_spread) =>
          if current_spread > s.spread_anomaly_threshold * average_spread then
            (true, s)
          else (false, s)
        | none => (false, s)

/-- A sequence of `update_position` calls applied in order
(symbol, amount, price, side). -/
def apply_updates (s : RiskState) (events : List (String × ℚ × ℚ × String)) :
    RiskState :=
  events.foldl (fun acc e => update_position acc e.1 e.2.1 e.2.2.1 e.2.2.2) s

/-! ## Market making strategy: ladder price computation
(src/strategies/market_making_strategy.py, `_calculate_order_prices`,
lines 167-201). -/

/-- The bid side of `_calculate_order_prices`: for each
`i in range(order_count)`, `spread_factor = 1 + i * 0.5`,
`bid_spread = spread_bid * spread_factor`,
`bid_price = mid_price * (1 - bid_spread / 100)`. -/
def calculate_bid_prices (mid_price spread_bid : ℚ) (order_count : ℕ) : List ℚ :=
  (List.range order_count).map (fun (i : ℕ) =>
    let spread_factor : ℚ := 1 + (i : ℚ) * (1 / 2)
    let bid_spread := spread_bid * spread_factor
    mid_price * (1 - bid_spread / 100))

/-- The ask side of `_calculate_order_prices`:
`ask_price = mid_price * (1 + ask_spread / 100)`. -/
def calculate_ask_prices (mid_price spread_ask : ℚ) (order_count : ℕ) : List ℚ :=
  (List.range order_count).map (fun (i : ℕ) =>
    let spread_factor : ℚ := 1 + (i : ℚ) * (1 / 2)
    let ask_spread := spread_ask * spread_factor
    mid_price * (1 + ask_spread / 100))

/-- Return value of `_calculate_order_prices`: the dict with keys
`bid_prices` and `ask_prices`. -/
structure OrderPrices where
  bid_prices : List ℚ
  ask_prices : List ℚ
deriving DecidableEq

/-- `MarketMakingStrategy._calculate_order_prices`. -/
def calculate_order_prices (mid_price spread_bid spread_ask : ℚ)
    (order_count : ℕ) : OrderPrices :=
  { bid_prices := calculate_bid_prices mid_price spread_bid order_count
    ask_prices := calculate_ask_prices mid_price spread_ask order_count }

/-! ## Statistical arbitrage strategy
(src/strategies/statistical_arbitrage_strategy.py). -/

/-- One entry of `self.pair_models`: the fields read by
`_calculate_z_score`, `_open_arbitrage_position` and `_manage_positions`. -/
structure PairModel where
  asset1 : String
  asset2 : String
  slope : ℚ
  intercept : ℚ
  correlation : ℚ
  spread_mean : ℚ
  spread_std : ℚ
deriving DecidableEq

/-- `StatisticalArbitrageStrategy._calculate_z_score` (lines 209-232):
0 when the pair has no model, 0 when `spread_std == 0`, otherwise
`(current_spread - spread_mean) / spread_std`. -/
def calculate_z_score (pair_models : List (String × PairModel))
    (current_spread : ℚ) (pair_id : String) : ℚ :=
  match pair_models.lookup pair_id with
  | none => 0
  | some model =>
    if model.spread_std = 0 then 0
    else (current_spread - model.spread_mean) / model.spread_std

/-- The `stop_loss_z_score` stored by `_open_arbitrage_position`
(line 460): `z_score * (1 + stop_loss_pct * (1 if direction == "long"
else -1))`. -/
def stop_loss_z_score (z_score stop_loss_pct : ℚ) (direction : String) : ℚ :=
  z_score * (1 + stop_loss_pct * (if direction = "long" then 1 else -1))

/-- The close condition of `_manage_positions` (lines 519-531): a long
position closes when the current z-score is at or above the target or at
or below the stop; a short position closes when it is at or below the
target or at or above the stop. -/
def should_close_position (direction : String)
    (current_z target_z stop_z : ℚ) : Bool :=
  if direction = "long" then
    decide (current_z ≥ target_z) || decide (current_z ≤ stop_z)
  else
    decide (current_z ≤ target_z) || decide (current_z ≥ stop_z)

/-! ## Order executor (src/execution/order_executor.py)

The venue is an oracle: `venue : ℕ → VenueResp` gives the outcome of the
order-creation call made on each attempt (`VenueResp.err` models a raised
exception), and `latency : ℕ → ℚ` the measured latency of that attempt.
The recursion of `place_order` on venue failure is embedded with explicit
fuel, since the source recursion has no decreasing argument; the fourth
component of each result counts the venue calls actually made. -/

/-- Response of `exchange.create_limit_order` / `create_market_order`.
`filled` and `remaining` model `order.get("filled", 0)` and
`order.get("remaining", amount)`: absent keys are `none`. -/
inductive VenueResp where
  | ok (id status : String) (filled remaining : Option ℚ)
  | err
deriving DecidableEq

/-- One venue connection as seen by `_get_exchange_for_symbol`:
`markets` is the result of `load_markets()` (`none` models a raised
exception). -/
structure Exchange where
  markets : Option (List String)
deriving DecidableEq

/-- The scan loop of `_get_exchange_for_symbol` (lines 424-431): first
exchange whose `load_markets()` succeeds and lists the symbol; exchanges
whose `load_markets()` raises are skipped. -/
def find_supported_exchange (exchanges : List (String × Exchange))
    (symbol : String) : Option Exchange :=
  match exchanges with
  | [] => none
  | (_, ex) :: rest =>
    match ex.markets with
    | some ms =>
      if symbol ∈ ms then some ex else find_supported_exchange rest symbol
    | none => find_supported_exchange rest symbol

/-- `OrderExecutor._get_exchange_for_symbol` (lines 408-439): an explicit
`exchange_id` that is present wins; otherwise the first exchange
supporting the symbol; otherwise the first exchange at all; otherwise
`none`. -/
def get_exchange_for_symbol (exchanges : List (String × Exchange))
    (symbol : String) (exchange_id : Option String) : Option Exchange :=
  let by_id := match exchange_id with
    | some eid => exchanges.lookup eid
    | none => none
  match by_id with
  | some ex => some ex
  | none =>
    match find_supported_exchange exchanges symbol with
    | some ex => some ex
    | none => (exchanges.head?).map Prod.snd

/-- `self.execution_stats` of `OrderExecutor.__init__` (lines 50-57). -/
structure ExecStats where
  orders_placed : ℕ
  orders_filled : ℕ
  orders_cancelled : ℕ
  orders_rejected : ℕ
  total_volume : ℚ
  average_latency_ms : ℚ
deriving DecidableEq

/-- An entry of the active-orders table / order history. The wall-clock
fields of the source dict (`client_id`, `timestamp`, `raw_order`) are
omitted: no modelled operation branches on them. -/
structure OrderInfo where
  id : String
  symbol : String
  side : String
  order_type : String
  amount : ℚ
  price : Option ℚ
  status : String
  filled : ℚ
  remaining : ℚ
  exchange_id : Option String
deriving DecidableEq

/-- Mutable state of `OrderExecutor`: the nested dict
`self.active_orders[exchange_id][symbol]` (keyed by the `exchange_id`
argument, which may be None), `self.order_history`, and
`self.execution_stats`. -/
structure ExecState where
  active_orders : List (Option String × List (String × List OrderInfo))
  order_history : List OrderInfo
  stats : ExecStats
deriving DecidableEq

/-- Configuration read in `OrderExecutor.__init__` that `place_order` and
`cancel_order` consult. -/
structure ExecConfig where
  retry_attempts : ℕ
  retry_delay_seconds : ℚ
  use_iceberg_orders : Bool
deriving DecidableEq

/-- `if exchange_id not in self.active_orders:
self.active_orders[exchange_id] = \x7b\x7d` (line 128). -/
def ensure_exchange_key (ao : List (Option String × List (String × List OrderInfo)))
    (eid : Option String) : List (Option String × List (String × List OrderInfo)) :=
  if (ao.lookup eid).isSome then ao else ao ++ [(eid, [])]

/-- Append an order under `active_orders[eid][symbol]`, creating the
symbol entry if absent (lines 151-170). -/
def append_active_order (ao : List (Option String × List (String × List OrderInfo)))
    (eid : Option String) (symbol : String) (info : OrderInfo) :
    List (Option String × List (String × List OrderInfo)) :=
  ao.map (fun kv =>
    if kv.1 = eid then
      (kv.1,
        if (kv.2.lookup symbol).isSome then
          kv.2.map (fun p => if p.1 = symbol then (p.1, p.2 ++ [info]) else p)
        else
          kv.2 ++ [(symbol, [info])])
    else kv)

/-- Exit points of `place_order`. The source returns `None` on every
failure path; the constructors record which `return None` was taken.
`out_of_fuel` marks exhaustion of the embedding fuel inside the retry
recursion (the source recursion itself never terminates on persistent
venue failure, since `self.retry_attempts` is never decremented). -/
inductive PlaceOutcome where
  | placed (info : OrderInfo)
  | invalid_params
  | invalid_price
  | no_exchange
  | risk_rejected
  | unsupported_type
  | execution_failed
  | out_of_fuel
deriving DecidableEq

/-- Result of one invocation of the `place_order` body: either the call
returns (`done`, carrying outcome, executor state, risk state and the
number of venue order-creation calls made, 0 or 1), or the exception
handler decides to re-enter the whole call (`retry`, after one venue
call, carrying the states as mutated so far). -/
inductive PlaceStep where
  | done (outcome : PlaceOutcome) (st : ExecState) (risk : Option RiskState)
      (venue_calls : ℕ)
  | retry (st : ExecState) (risk : Option RiskState)
deriving DecidableEq

/-- One invocation of the body of `OrderExecutor.place_order`
(lines 73-205), without the retry recursion. Source control flow in
order: parameter validation, limit-price validation, exchange resolution
(`if not exchange: return None`), risk-limit gate, active-orders key
insertion, dispatch on order type, venue call, statistics and table
updates, immediate-fill position update. A venue exception is caught
and, when `retry_attempts > 0`, the whole call is re-entered with
identical arguments (`retry`). An immediate fill of an order with
`price = none` makes `update_position` raise a `TypeError` right after
its position write (`amount * None`); that exception reaches the same
handler, so the position write survives into the retry. -/
def place_order_step (cfg : ExecConfig) (exchanges : List (String × Exchange))
    (venue : ℕ → VenueResp) (latency : ℕ → ℚ)
    (symbol side order_type : String) (amount : ℚ) (price : Option ℚ)
    (exchange_id : Option String) (attempt : ℕ) (st : ExecState)
    (risk : Option RiskState) : PlaceStep :=
  if symbol = "" ∨ side = "" ∨ order_type = "" ∨ amount ≤ 0 then
    .done .invalid_params st risk 0
  else if order_type = "limit" ∧
      (match price with | none => true | some p => decide (p ≤ 0)) = true then
    .done .invalid_price st risk 0
  else if get_exchange_for_symbol exchanges symbol exchange_id = none then
    .done .no_exchange st risk 0
  else
    let risk_blocked : Bool := match risk with
      | some r => !(check_position_limit r symbol side amount).1
      | none => false
    if risk_blocked then
      .done .risk_rejected st risk 0
    else
      let st1 := { st with
        active_orders := ensure_exchange_key st.active_orders exchange_id }
      if order_type ≠ "limit" ∧ order_type ≠ "market" then
        .done .unsupported_type st1 risk 0
      else
        match venue attempt with
        | .err =>
          if cfg.retry_attempts > 0 then .retry st1 risk
          else .done .execution_failed st1 risk 1
        | .ok oid ostatus ofilled oremaining =>
          let lat := latency attempt
          let placed1 := st1.stats.orders_placed + 1
          let stats2 := { st1.stats with
            orders_placed := placed1
            average_latency_ms :=
              (st1.stats.average_latency_ms * ((placed1 : ℚ) - 1) + lat) /
                (placed1 : ℚ) }
          let info : OrderInfo :=
            { id := oid, symbol := symbol, side := side
              order_type := order_type, amount := amount, price := price
              status := ostatus, filled := ofilled.getD 0
              remaining := oremaining.getD amount, exchange_id := exchange_id }
          let st2 := { st1 with
            stats := stats2
            active_orders :=
              append_active_order st1.active_orders exchange_id symbol info
            order_history := st1.order_history ++ [info] }
          if ostatus = "closed" ∨ ostatus = "filled" then
            let st3 := { st2 with stats := { st2.stats with
              orders_filled := st2.stats.orders_filled + 1
              total_volume := st2.stats.total_volume + amount } }
            match risk with
            | some r =>
              match price with
              | some p =>
                .done (.placed info) st3 (some (update_position r symbol amount p side)) 1
              | none =>
                let cp := getPos r.positions symbol
                let r1 := { r with positions :=
                  (if side = "buy" then setPos r.positions symbol (cp + amount)
                   else setPos r.positions symbol (cp - amount)) }
                if cfg.retry_attempts > 0 then .retry st3 (some r1)
                else .done .execution_failed st3 (some r1) 1
            | none => .done (.placed info) st3 none 1
          else
            .done (.placed info) st2 risk 1

/-- `OrderExecutor.place_order` including its retry recursion: the body
(`place_order_step`) is re-entered as long as it requests a retry. The
source recursion has no decreasing argument (`self.retry_attempts` is
never decremented), so it is embedded with explicit `fuel`; `out_of_fuel`
marks fuel exhaustion, `attempt` indexes the venue oracle. The last
component counts the venue order-creation calls made in total. -/
def place_order_loop (cfg : ExecConfig) (exchanges : List (String × Exchange))
    (venue : ℕ → VenueResp) (latency : ℕ → ℚ)
    (symbol side order_type : String) (amount : ℚ) (price : Option ℚ)
    (exchange_id : Option String) :
    (fuel attempt : ℕ) → ExecState → Option RiskState →
      PlaceOutcome × ExecState × Option RiskState × ℕ
  | 0, attempt, st, risk =>
    match place_order_step cfg exchanges venue latency symbol side order_type
        amount price exchange_id attempt st risk with
    | .done outcome st1 risk1 n => (outcome, st1, risk1, n)
    | .retry st1 risk1 => (.out_of_fuel, st1, risk1, 1)
  | fuel + 1, attempt, st, risk =>
    match place_order_step cfg exchanges venue latency symbol side order_type
        amount price exchange_id attempt st risk with
    | .done outcome st1 risk1 n => (outcome, st1, risk1, n)
    | .retry st1 risk1 =>
      let r := place_order_loop cfg exchanges venue latency symbol side
        order_type amount price exchange_id fuel (attempt + 1) st1 risk1
      (r.1, r.2.1, r.2.2.1, r.2.2.2 + 1)

/-- Entry point: `place_order` starting at attempt 0. -/
def place_order (cfg : ExecConfig) (exchanges : List (String × Exchange))
    (venue : ℕ → VenueResp) (latency : ℕ → ℚ)
    (symbol side order_type : String) (amount : ℚ) (price : Option ℚ)
    (exchange_id : Option String) (fuel : ℕ) (st : ExecState)
    (risk : Option RiskState) : PlaceOutcome × ExecState × Option RiskState × ℕ :=
  place_order_loop cfg exchanges venue latency symbol side order_type amount
    price exchange_id fuel 0 st risk

/-- Set the status of the first order with the given id to "canceled"
(`cancel_order`, lines 234-238: linear scan with break). -/
def mark_canceled_first (orders : List OrderInfo) (order_id : String) :
    List OrderInfo :=
  match orders with
  | [] => []
  | o :: rest =>
    if o.id = order_id then { o with status := "canceled" } :: rest
    else o :: mark_canceled_first rest order_id

/-- In-table status update of `cancel_order`: only when both the
exchange key and the symbol key are present. -/
def mark_canceled (ao : List (Option String × List (String × List OrderInfo)))
    (eid : Option String) (symbol order_id : String) :
    List (Option String × List (String × List OrderInfo)) :=
  ao.map (fun kv =>
    if kv.1 = eid then
      (kv.1, kv.2.map (fun p =>
        if p.1 = symbol then (p.1, mark_canceled_first p.2 order_id) else p))
    else kv)

/-- Exit points of `cancel_order` (the source returns a bare Bool;
`out_of_fuel` again marks the unbounded retry recursion). -/
inductive CancelOutcome where
  | success
  | no_exchange
  | failed
  | out_of_fuel
deriving DecidableEq

/-- `OrderExecutor.cancel_order` (lines 207-253). The oracle
`venue_cancel attempt` is true when the venue call returns and false when
it raises. On success the cancelled counter is incremented and the local
status set to "canceled"; on failure with `retry_attempts > 0` the call
is re-entered with identical arguments (again never decrementing the
configured attempt count). -/
def cancel_order_loop (cfg : ExecConfig) (exchanges : List (String × Exchange))
    (venue_cancel : ℕ → Bool) (symbol order_id : String)
    (exchange_id : Option String) :
    (fuel attempt : ℕ) → ExecState → CancelOutcome × ExecState × ℕ
  | fuel, attempt, st =>
    match get_exchange_for_symbol exchanges symbol exchange_id with
    | none => (.no_exchange, st, 0)
    | some _ex =>
      if venue_cancel attempt then
        let st1 := { st with
          stats := { st.stats with
            orders_cancelled := st.stats.orders_cancelled + 1 }
          active_orders := mark_canceled st.active_orders exchange_id symbol order_id }
        (.success, st1, 1)
      else
        if cfg.retry_attempts > 0 then
          match fuel with
          | 0 => (.out_of_fuel, st, 1)
          | f + 1 =>
            let r := cancel_order_loop cfg exchanges venue_cancel symbol
              order_id exchange_id f (attempt + 1) st
            (r.1, r.2.1, r.2.2 + 1)
        else
          (.failed, st, 1)

/-! ## Concrete fixtures used by the theorems below -/

/-- Baseline risk state: limits as in the source defaults
(max position 1000, max drawdown 5%, initial capital 10000), position of
1000 on BTC/USDT (exactly at the limit). -/
def rs_at_max : RiskState :=
  { max_position_size := 1000, max_drawdown_percent := 5, stop_loss_percent := 2
    take_profit_percent := 5, max_open_orders := 10
    manipulation_detection_enabled := true
    volatility_threshold := 3, volume_spike_threshold := 5
    spread_anomaly_threshold := 3, has_market_data := false
    positions := [("BTC/USDT", 1000)], initial_capital := 10000
    current_capital := 10000, peak_capital := 10000
    drawdown_history := [], daily_pnl := [], metrics := ⟨0, 0, 0, 0, 0⟩ }

/-- Risk state whose BTC/USDT position (-10) already exceeds the limit (5). -/
def rs_beyond_limit : RiskState :=
  { rs_at_max with max_position_size := 5, positions := [("BTC/USDT", -10)] }

/-- Risk state with a small in-limit position (2, limit 5). -/
def rs_small : RiskState :=
  { rs_at_max with max_position_size := 5, positions := [("BTC/USDT", 2)] }

/-- Risk state in 10% drawdown (current 9000, peak 10000). -/
def rs_drawdown : RiskState := { rs_at_max with current_capital := 9000 }

/-- Risk state with negative current capital. -/
def rs_broke : RiskState := { rs_at_max with current_capital := -1 }

/-- One venue knowing BTC/USDT. -/
def exchanges1 : List (String × Exchange) := [("binance", ⟨some ["BTC/USDT"]⟩)]

/-- Executor configuration with the source defaults
(retry_attempts 3, retry_delay_seconds 1). -/
def cfg1 : ExecConfig :=
  { retry_attempts := 3, retry_delay_seconds := 1, use_iceberg_orders := false }

/-- Executor state with zeroed statistics and the binance key present. -/
def st_zero : ExecState :=
  { active_orders := [(some "binance", [])], order_history := []
    stats := ⟨0, 0, 0, 0, 0, 0⟩ }

/-- Venue oracle that raises on every order-creation call. -/
def venue_always_err : ℕ → VenueResp := fun _ => VenueResp.err

/-- Venue oracle that accepts every order as open. -/
def venue_always_ok : ℕ → VenueResp := fun _ => VenueResp.ok "o1" "open" none none

/-- Venue cancel oracle that raises on every call. -/
def cancel_always_err : ℕ → Bool := fun _ => false

/-- Constant latency oracle. -/
def lat0 : ℕ → ℚ := fun _ => 5

/-- Pair-model table with spread mean 0 and spread std 1 for pair P. -/
def zmodels_unit : List (String × PairModel) := [("P", ⟨"A", "B", 1, 0, 1, 0, 1⟩)]

/-- Pair-model table with spread std 0 for pair P. -/
def zmodels_degenerate : List (String × PairModel) := [("P", ⟨"A", "B", 1, 0, 1, 0, 0⟩)]

/-! ## Theorems -/

/-! ### Helper lemmas -/

/-- Unfolding of `check_position_limit` with the local variables inlined. -/
lemma check_position_limit_eq (s : RiskState) (symbol side : String) (amount : ℚ) :
    check_position_limit s symbol side amount =
      (if |(if side = "buy" then getPos s.positions symbol + amount
            else getPos s.positions symbol - amount)| > s.max_position_size
       then (false, s) else (true, s)) := rfl

lemma cpl_at_max_buy : (check_position_limit rs_at_max "BTC/USDT" "buy" 1).1 = false := by
  rw [check_position_limit_eq, if_pos rfl,
    show getPos rs_at_max.positions "BTC/USDT" = 1000 from rfl]
  rw [if_pos (show rs_at_max.max_position_size < |1000 + 1| from by
    rw [lt_abs]
    left
    norm_num [rs_at_max])]

lemma cpl_at_max_sell : (check_position_limit rs_at_max "BTC/USDT" "sell" 1).1 = true := by
  rw [check_position_limit_eq,
    if_neg (show ¬(("sell" : String) = "buy") from by decide),
    show getPos rs_at_max.positions "BTC/USDT" = 1000 from rfl]
  rw [if_neg (show ¬(rs_at_max.max_position_size < |(1000 : ℚ) - 1|) from by
    rw [not_lt, abs_le]
    constructor <;> norm_num [rs_at_max])]

/-! ### C10 -/

/-- Claim C10: whenever `current_capital <= 0` or `peak_capital <= 0`,
`check_drawdown_limit` returns false immediately with the state
completely unchanged: nothing is appended to the drawdown history, the
max-drawdown metric is untouched, and the guarded division by
`peak_capital` is never reached. -/
theorem check_drawdown_limit_nonpositive_guard (s : RiskState)
    (h : s.current_capital ≤ 0 ∨ s.peak_capital ≤ 0) :
    check_drawdown_limit s = (false, s) := by
  unfold check_drawdown_limit
  rw [if_pos h]

/-- Witness for C10 at a concrete state with negative current capital. -/
theorem check_drawdown_limit_nonpositive_guard_witness :
    check_drawdown_limit rs_broke = (false, rs_broke) :=
  check_drawdown_limit_nonpositive_guard rs_broke (Or.inl (by norm_num [rs_broke, rs_at_max]))

/-! ### C8 -/

/-- Claim C8 fails on the code: for a short position (entry z-score 5/2
above the threshold, `stop_loss_pct` 1/20) the stored stop-loss z-score
is `z * (1 - stop_loss_pct) = 19/8`, strictly CLOSER to zero than the
entry z-score instead of strictly farther, and the close condition of
`_manage_positions` already fires at the entry z-score itself, so the
stop is crossed immediately. For a long position (entry z-score -5/2)
the stop -21/8 is correctly widened away from zero. -/
theorem short_stop_loss_not_widened :
    stop_loss_z_score (5/2) (1/20) "short" = 19/8 ∧
    ¬(|stop_loss_z_score (5/2) (1/20) "short"| > |(5/2 : ℚ)|) ∧
    should_close_position "short" (5/2) 0 (stop_loss_z_score (5/2) (1/20) "short") = true ∧
    stop_loss_z_score (-(5/2)) (1/20) "long" = -(21/8) ∧
    |stop_loss_z_score (-(5/2)) (1/20) "long"| > |(-(5/2) : ℚ)| := by
  have hs : stop_loss_z_score (5/2) (1/20) "short" = 19/8 := by
    unfold stop_loss_z_score
    rw [if_neg (by decide)]
    norm_num
  have hl : stop_loss_z_score (-(5/2)) (1/20) "long" = -(21/8) := by
    unfold stop_loss_z_score
    rw [if_pos rfl]
    norm_num
  refine ⟨hs, ?_, ?_, hl, ?_⟩
  · rw [hs, abs_of_pos (by norm_num), abs_of_pos (by norm_num)]
    norm_num
  · unfold should_close_position
    rw [if_neg (by decide), hs]
    simp only [Bool.or_eq_true, decide_eq_true_eq, ge_iff_le]
    right
    norm_num
  · rw [hl, abs_of_neg (by norm_num), abs_of_neg (by norm_num)]
    norm_num

/-! ### C7 -/

/-- Claim C7: for every pair model, `_calculate_z_score` returns
`(current_spread - spread_mean) / spread_std` when `spread_std` is
non-zero, and exactly 0 when `spread_std = 0` (the division is never
evaluated in that case). -/
theorem calculate_z_score_spec (models : List (String × PairModel)) (cs : ℚ)
    (pid : String) (m : PairModel) (hm : models.lookup pid = some m) :
    (m.spread_std ≠ 0 →
      calculate_z_score models cs pid = (cs - m.spread_mean) / m.spread_std) ∧
    (m.spread_std = 0 → calculate_z_score models cs pid = 0) := by
  unfold calculate_z_score
  rw [hm]
  dsimp only
  constructor
  · intro hstd
    rw [if_neg hstd]
  · intro hstd
    rw [if_pos hstd]

/-- Witness for C7: with `spread_mean = 0` and `spread_std = 1`,
`zScore(2.0) = 2.0` exactly; with `spread_std = 0` the result is 0. -/
theorem calculate_z_score_spec_witness :
    calculate_z_score zmodels_unit 2 "P" = 2 ∧
    calculate_z_score zmodels_degenerate 2 "P" = 0 := by
  constructor
  · have h := (calculate_z_score_spec zmodels_unit 2 "P" ⟨"A", "B", 1, 0, 1, 0, 1⟩ rfl).1
      (by norm_num)
    rw [h]
    norm_num
  · exact (calculate_z_score_spec zmodels_degenerate 2 "P" ⟨"A", "B", 1, 0, 1, 0, 0⟩ rfl).2 rfl

/-! ### C4 -/

/-- Counterexample to claim C4 as stated: when the current position
already exceeds the limit (position -10, limit 5, side buy), the result
is false at amount 1 and flips BACK to true at the larger amount 10,
which brings the hypothetical position inside the limit. -/
theorem check_position_limit_flips_back :
    (check_position_limit rs_beyond_limit "BTC/USDT" "buy" 1).1 = false ∧
    (check_position_limit rs_beyond_limit "BTC/USDT" "buy" 10).1 = true ∧
    (1 : ℚ) ≤ 10 := by
  refine ⟨?_, ?_, by norm_num⟩
  · rw [check_position_limit_eq, if_pos rfl,
      show getPos rs_beyond_limit.positions "BTC/USDT" = -10 from rfl]
    rw [if_pos (show rs_beyond_limit.max_position_size < |-10 + 1| from by
      rw [lt_abs]
      right
      norm_num [rs_beyond_limit, rs_at_max])]
  · rw [check_position_limit_eq, if_pos rfl,
      show getPos rs_beyond_limit.positions "BTC/USDT" = -10 from rfl]
    rw [if_neg (show ¬(rs_beyond_limit.max_position_size < |-10 + 10|) from by
      rw [not_lt, abs_le]
      constructor <;> norm_num [rs_beyond_limit, rs_at_max])]

/-- Claim C4, amended: on every state whose current position for the
symbol is within the limit (`abs(position) <= max_position_size`, the
situation the code itself maintains), `check_position_limit` is
anti-monotone in a non-negative amount for both sides: once true at a
larger amount it is true at every smaller non-negative amount, that is,
past the threshold the result flips from true to false exactly once and
never back. -/
theorem check_position_limit_antitone_within_limit (s : RiskState)
    (symbol side : String) (a₁ a₂ : ℚ)
    (hcur : |getPos s.positions symbol| ≤ s.max_position_size)
    (h0 : 0 ≤ a₁) (h12 : a₁ ≤ a₂)
    (h2 : (check_position_limit s symbol side a₂).1 = true) :
    (check_position_limit s symbol side a₁).1 = true := by
  rcases abs_le.mp hcur with ⟨hc1, hc2⟩
  rw [check_position_limit_eq] at h2 ⊢
  by_cases hb : side = "buy"
  · rw [if_pos hb] at h2 ⊢
    have h2' : |getPos s.positions symbol + a₂| ≤ s.max_position_size := by
      by_contra hgt
      rw [not_le] at hgt
      rw [if_pos hgt] at h2
      exact Bool.false_ne_true h2
    rcases abs_le.mp h2' with ⟨hd1, hd2⟩
    rw [if_neg (not_lt.mpr (abs_le.mpr ⟨by linarith, by linarith⟩))]
  · rw [if_neg hb] at h2 ⊢
    have h2' : |getPos s.positions symbol - a₂| ≤ s.max_position_size := by
      by_contra hgt
      rw [not_le] at hgt
      rw [if_pos hgt] at h2
      exact Bool.false_ne_true h2
    rcases abs_le.mp h2' with ⟨hd1, hd2⟩
    rw [if_neg (not_lt.mpr (abs_le.mpr ⟨by linarith, by linarith⟩))]

/-- Witness for the amended C4: position 2 within limit 5, side buy,
amounts 1 and 2. -/
theorem check_position_limit_antitone_witness :
    (check_position_limit rs_small "BTC/USDT" "buy" 1).1 = true := by
  refine check_position_limit_antitone_within_limit rs_small "BTC/USDT" "buy" 1 2
    ?_ (by norm_num) (by norm_num) ?_
  · rw [show getPos rs_small.positions "BTC/USDT" = 2 from rfl, abs_le]
    constructor <;> norm_num [rs_small, rs_at_max]
  · rw [check_position_limit_eq, if_pos rfl,
      show getPos rs_small.positions "BTC/USDT" = 2 from rfl]
    rw [if_neg (show ¬(rs_small.max_position_size < |2 + 2|) from by
      rw [not_lt, abs_le]
      constructor <;> norm_num [rs_small, rs_at_max])]

/-! ### C3 helpers -/

lemma update_position_eq (s : RiskState) (symbol : String) (amount price : ℚ)
    (side : String) :
    update_position s symbol amount price side =
      { s with
        positions :=
          (if side = "buy" then
            setPos s.positions symbol (getPos s.positions symbol + amount)
           else setPos s.positions symbol (getPos s.positions symbol - amount))
        current_capital :=
          (if side = "buy" then
            s.current_capital - (amount * price + amount * price * (1 / 1000))
           else s.current_capital + (amount * price - amount * price * (1 / 1000)))
        peak_capital :=
          (if (if side = "buy" then
                s.current_capital - (amount * price + amount * price * (1 / 1000))
               else s.current_capital + (amount * price - amount * price * (1 / 1000)))
              > s.peak_capital
           then (if side = "buy" then
                  s.current_capital - (amount * price + amount * price * (1 / 1000))
                 else s.current_capital + (amount * price - amount * price * (1 / 1000)))
           else s.peak_capital) } := rfl

lemma le_ite_peak (p c : ℚ) : p ≤ if c > p then c else p := by
  split_ifs with h
  · linarith
  · exact le_refl p

lemma ite_peak_ge (c p : ℚ) : c ≤ if c > p then c else p := by
  split_ifs with h
  · exact le_refl c
  · exact not_lt.mp h

lemma update_position_peak_mono (s : RiskState) (symbol : String)
    (amount price : ℚ) (side : String) :
    s.peak_capital ≤ (update_position s symbol amount price side).peak_capital := by
  rw [update_position_eq]
  dsimp only
  exact le_ite_peak _ _

lemma update_position_cur_le_peak (s : RiskState) (symbol : String)
    (amount price : ℚ) (side : String) :
    (update_position s symbol amount price side).current_capital ≤
      (update_position s symbol amount price side).peak_capital := by
  rw [update_position_eq]
  dsimp only
  exact ite_peak_ge _ _

lemma apply_updates_cons (s : RiskState) (e : String × ℚ × ℚ × String)
    (rest : List (String × ℚ × ℚ × String)) :
    apply_updates s (e :: rest) =
      apply_updates (update_position s e.1 e.2.1 e.2.2.1 e.2.2.2) rest := rfl

lemma apply_updates_peak_mono (events : List (String × ℚ × ℚ × String))
    (s : RiskState) :
    s.peak_capital ≤ (apply_updates s events).peak_capital := by
  induction events generalizing s with
  | nil => exact le_refl _
  | cons e rest ih =>
    rw [apply_updates_cons]
    exact le_trans (update_position_peak_mono s e.1 e.2.1 e.2.2.1 e.2.2.2)
      (ih (update_position s e.1 e.2.1 e.2.2.1 e.2.2.2))

lemma apply_updates_cur_le_peak (events : List (String × ℚ × ℚ × String))
    (s : RiskState) (h : s.current_capital ≤ s.peak_capital) :
    (apply_updates s events).current_capital ≤
      (apply_updates s events).peak_capital := by
  induction events generalizing s with
  | nil => exact h
  | cons e rest ih =>
    rw [apply_updates_cons]
    exact ih _ (update_position_cur_le_peak s e.1 e.2.1 e.2.2.1 e.2.2.2)

lemma report_drawdown_percent_nonneg (s : RiskState)
    (h : s.current_capital ≤ s.peak_capital) : 0 ≤ report_drawdown_percent s := by
  unfold report_drawdown_percent
  split_ifs with hp
  · have hd : s.current_capital / s.peak_capital ≤ 1 :=
      div_le_one_of_le₀ h (le_of_lt hp)
    linarith
  · exact le_refl 0

/-! ### C3 -/

/-- Claim C3: `peak_capital` never decreases across any single
`update_position` call, and along every sequence of `update_position`
calls from the initial state (`current_capital = peak_capital =
initial_capital`) the invariant `current_capital <= peak_capital` holds,
so the `drawdown_percent` reported by `get_risk_report` is always
non-negative. -/
theorem capital_drawdown_invariant :
    (∀ (s : RiskState) (symbol : String) (amount price : ℚ) (side : String),
        s.peak_capital ≤ (update_position s symbol amount price side).peak_capital) ∧
    (∀ (cfg : RiskState) (events : List (String × ℚ × ℚ × String)),
        (apply_updates (init_risk_state cfg) events).current_capital ≤
          (apply_updates (init_risk_state cfg) events).peak_capital ∧
        (init_risk_state cfg).peak_capital ≤
          (apply_updates (init_risk_state cfg) events).peak_capital ∧
        0 ≤ report_drawdown_percent (apply_updates (init_risk_state cfg) events)) := by
  refine ⟨update_position_peak_mono, fun cfg events => ?_⟩
  have h0 : (init_risk_state cfg).current_capital ≤ (init_risk_state cfg).peak_capital :=
    le_refl _
  have h1 := apply_updates_cur_le_peak events (init_risk_state cfg) h0
  exact ⟨h1, apply_updates_peak_mono events (init_risk_state cfg),
    report_drawdown_percent_nonneg _ h1⟩

/-! ### C9 -/

/-- Counterexample to claim C9 as stated. -/
theorem check_drawdown_limit_mutates_state :
    ¬((check_drawdown_limit rs_drawdown).2 = rs_drawdown) := by
  intro h
  have hl : (check_drawdown_limit rs_drawdown).2.drawdown_history.length = 1 := by
    rw [check_drawdown_limit,
      if_neg (show ¬(rs_drawdown.current_capital ≤ 0 ∨ rs_drawdown.peak_capital ≤ 0)
        from by
          push_neg
          constructor <;> norm_num [rs_drawdown, rs_at_max])]
    dsimp only
    split_ifs <;> simp [rs_drawdown, rs_at_max]
  rw [h] at hl
  simp [rs_drawdown, rs_at_max] at hl

/-- Claim C9, amended: `check_position_limit` and
`detect_market_manipulation` leave the whole `RiskManager` state
unchanged, and `check_drawdown_limit` leaves positions, all capital
fields, and the daily pnl series unchanged; but (per the counterexample
above) `check_drawdown_limit` does append to the drawdown history and
update the max-drawdown metric, so `update_position` is NOT the only
mutating operation. -/
theorem risk_checks_frame :
    (∀ (s : RiskState) (symbol side : String) (amount : ℚ),
        (check_position_limit s symbol side amount).2 = s) ∧
    (∀ (s : RiskState) (view : MarketView),
        (detect_market_manipulation s view).2 = s) ∧
    (∀ s : RiskState,
        (check_drawdown_limit s).2.positions = s.positions ∧
        (check_drawdown_limit s).2.current_capital = s.current_capital ∧
        (check_drawdown_limit s).2.peak_capital = s.peak_capital ∧
        (check_drawdown_limit s).2.initial_capital = s.initial_capital ∧
        (check_drawdown_limit s).2.daily_pnl = s.daily_pnl) := by
  refine ⟨?_, ?_, ?_⟩
  · intro s symbol side amount
    rw [check_position_limit_eq]
    split_ifs <;> rfl
  · intro s view
    unfold detect_market_manipulation
    dsimp only
    cases hsp : view.spread_info with
    | none => split_ifs <;> rfl
    | some p =>
      cases p with
      | mk cs avg =>
        dsimp only
        split_ifs <;> rfl
  · intro s
    unfold check_drawdown_limit
    dsimp only
    split_ifs <;> exact ⟨rfl, rfl, rfl, rfl, rfl⟩

/-! ### C6 -/

lemma getElem?_range_map (f : ℕ → ℚ) (n i : ℕ) (h : i < n) :
    ((List.range n).map f)[i]? = some (f i) := by
  simp [List.getElem?_map, List.getElem?_range, h]

/-- Claim C6: for every mid price, spreads and order count, the i-th
rung of the ladder computed by `_calculate_order_prices` is exactly
`bid_i = mid * (1 - spread_bid * (1 + i*0.5) / 100)` and
`ask_i = mid * (1 + spread_ask * (1 + i*0.5) / 100)`; with equal spreads
the bid and ask offsets from mid are mirror images at every index; and
the spec scenario (mid 50050, spread 0.1, one order) reproduces the
multiplier formula exactly. -/
theorem ladder_prices_spec (mid sb sa : ℚ) (n i : ℕ) (h : i < n) :
    ((calculate_order_prices mid sb sa n).bid_prices)[i]? =
      some (mid * (1 - sb * (1 + (i : ℚ) * (1/2)) / 100)) ∧
    ((calculate_order_prices mid sb sa n).ask_prices)[i]? =
      some (mid * (1 + sa * (1 + (i : ℚ) * (1/2)) / 100)) ∧
    (sb = sa →
      mid - mid * (1 - sb * (1 + (i : ℚ) * (1/2)) / 100) =
        mid * (1 + sa * (1 + (i : ℚ) * (1/2)) / 100) - mid) ∧
    (calculate_order_prices 50050 (1/10) (1/10) 1).bid_prices =
      [50050 * (1 - (1/10) * (1 + (0 : ℚ) * (1/2)) / 100)] := by
  refine ⟨?_, ?_, ?_, ?_⟩
  · unfold calculate_order_prices calculate_bid_prices
    exact getElem?_range_map _ n i h
  · unfold calculate_order_prices calculate_ask_prices
    exact getElem?_range_map _ n i h
  · intro hba
    rw [hba]
    ring
  · unfold calculate_order_prices calculate_bid_prices
    norm_num [List.range_succ]

/-- Witness for C6 at the concrete scenario of the spec (mid 50050,
both spreads 0.1, single order). -/
theorem ladder_prices_spec_witness :
    ((calculate_order_prices 50050 (1/10) (1/10) 1).bid_prices)[0]? =
      some (50050 * (1 - (1/10) * (1 + (0 : ℚ) * (1/2)) / 100)) ∧
    ((calculate_order_prices 50050 (1/10) (1/10) 1).ask_prices)[0]? =
      some (50050 * (1 + (1/10) * (1 + (0 : ℚ) * (1/2)) / 100)) := by
  have h := ladder_prices_spec 50050 (1/10) (1/10) 1 0 (by norm_num)
  exact ⟨h.1, h.2.1⟩

/-! ### Executor helpers -/

/-- Evaluation of one `place_order` body on the risk-rejected path: when
the parameter checks pass, an exchange resolves, and the risk manager
refuses the position, the body returns the rejection with both states
unchanged and zero venue order-creation calls. -/
lemma place_order_step_risk_rejected (cfg : ExecConfig)
    (exchanges : List (String × Exchange)) (venue : ℕ → VenueResp)
    (latency : ℕ → ℚ) (symbol side order_type : String) (amount : ℚ)
    (price : Option ℚ) (exchange_id : Option String) (attempt : ℕ)
    (st : ExecState) (r : RiskState)
    (hv : ¬(symbol = "" ∨ side = "" ∨ order_type = "" ∨ amount ≤ 0))
    (hp : ¬(order_type = "limit" ∧
      (match price with | none => true | some p => decide (p ≤ 0)) = true))
    (hex : ¬(get_exchange_for_symbol exchanges symbol exchange_id = none))
    (hrisk : (check_position_limit r symbol side amount).1 = false) :
    place_order_step cfg exchanges venue latency symbol side order_type amount
      price exchange_id attempt st (some r) =
      .done .risk_rejected st (some r) 0 := by
  unfold place_order_step
  rw [if_neg hv, if_neg hp, if_neg hex]
  dsimp only
  rw [hrisk]
  rfl

/-! ### C1 -/

/-- Claim C1: whenever a `place_order` call reaches the risk gate (the
parameter checks pass and an exchange resolves) and
`check_position_limit` returns false, the call returns the risk
rejection (the distinguished `return None` after the risk check) with
zero venue order-creation calls and both the executor state and the risk
state unchanged — for every fuel and attempt index, in particular when
the position is at the limit and the side would increase exposure. -/
theorem place_order_risk_rejected_no_venue_call (cfg : ExecConfig)
    (exchanges : List (String × Exchange)) (venue : ℕ → VenueResp)
    (latency : ℕ → ℚ) (symbol side order_type : String) (amount : ℚ)
    (price : Option ℚ) (exchange_id : Option String) (fuel attempt : ℕ)
    (st : ExecState) (r : RiskState)
    (hv : ¬(symbol = "" ∨ side = "" ∨ order_type = "" ∨ amount ≤ 0))
    (hp : ¬(order_type = "limit" ∧
      (match price with | none => true | some p => decide (p ≤ 0)) = true))
    (hex : ¬(get_exchange_for_symbol exchanges symbol exchange_id = none))
    (hrisk : (check_position_limit r symbol side amount).1 = false) :
    place_order_loop cfg exchanges venue latency symbol side order_type amount
      price exchange_id fuel attempt st (some r) =
      (.risk_rejected, st, some r, 0) := by
  have hs := place_order_step_risk_rejected cfg exchanges venue latency symbol
    side order_type amount price exchange_id attempt st r hv hp hex hrisk
  cases fuel with
  | zero => rw [place_order_loop, hs]
  | succ f => rw [place_order_loop, hs]

/-- Witness for C1: position at the limit (1000 of 1000), buy side. -/
theorem place_order_risk_rejected_no_venue_call_witness :
    place_order_loop cfg1 exchanges1 venue_always_ok lat0 "BTC/USDT" "buy"
      "limit" 1 (some 100) (some "binance") 5 0 st_zero (some rs_at_max) =
      (.risk_rejected, st_zero, some rs_at_max, 0) :=
  place_order_risk_rejected_no_venue_call cfg1 exchanges1 venue_always_ok lat0
    "BTC/USDT" "buy" "limit" 1 (some 100) (some "binance") 5 0 st_zero rs_at_max
    (by decide) (by decide) (by decide) cpl_at_max_buy

/-! ### C5 -/

/-- Claim C5 fails on the code: a risk-rejected `place_order` leaves the
execution statistics bitwise unchanged; in particular `orders_rejected`
is 0 both before and after (nothing in the source ever increments it).
The same holds for a validation failure (amount 0). -/
theorem rejected_order_not_counted :
    (place_order cfg1 exchanges1 venue_always_ok lat0 "BTC/USDT" "buy" "limit" 1
        (some 100) (some "binance") 5 st_zero (some rs_at_max)).1 =
      PlaceOutcome.risk_rejected ∧
    (place_order cfg1 exchanges1 venue_always_ok lat0 "BTC/USDT" "buy" "limit" 1
        (some 100) (some "binance") 5 st_zero (some rs_at_max)).2.1.stats =
      st_zero.stats ∧
    st_zero.stats.orders_rejected = 0 ∧
    (place_order cfg1 exchanges1 venue_always_ok lat0 "BTC/USDT" "buy" "limit" 1
        (some 100) (some "binance") 5 st_zero (some rs_at_max)).2.1.stats.orders_rejected
      = 0 ∧
    (place_order cfg1 exchanges1 venue_always_ok lat0 "BTC/USDT" "buy" "limit" 0
        (some 100) (some "binance") 5 st_zero (some rs_at_max)).1 =
      PlaceOutcome.invalid_params ∧
    (place_order cfg1 exchanges1 venue_always_ok lat0 "BTC/USDT" "buy" "limit" 0
        (some 100) (some "binance") 5 st_zero (some rs_at_max)).2.1.stats =
      st_zero.stats := by
  have hs := place_order_step_risk_rejected cfg1 exchanges1 venue_always_ok
    lat0 "BTC/USDT" "buy" "limit" 1 (some 100) (some "binance") 0 st_zero
    rs_at_max (by decide) (by decide) (by decide) cpl_at_max_buy
  have h : place_order cfg1 exchanges1 venue_always_ok lat0 "BTC/USDT" "buy"
      "limit" 1 (some 100) (some "binance") 5 st_zero (some rs_at_max) =
      (.risk_rejected, st_zero, some rs_at_max, 0) := by
    rw [place_order, place_order_loop, hs]
  rw [h]
  exact ⟨rfl, rfl, rfl, rfl, rfl, rfl⟩

/-! ### C2 helpers -/

lemma place_order_err_step_eval (attempt : ℕ) :
    place_order_step cfg1 exchanges1 venue_always_err lat0 "BTC/USDT" "sell"
      "limit" 1 (some 100) (some "binance") attempt st_zero (some rs_at_max) =
      .retry st_zero (some rs_at_max) := by
  unfold place_order_step
  rw [if_neg (by decide), if_neg (by decide), if_neg (by decide)]
  dsimp only
  rw [cpl_at_max_sell]
  rfl

lemma place_order_err_all (fuel attempt : ℕ) :
    (place_order_loop cfg1 exchanges1 venue_always_err lat0 "BTC/USDT" "sell"
        "limit" 1 (some 100) (some "binance") fuel attempt st_zero
        (some rs_at_max)).1 = PlaceOutcome.out_of_fuel ∧
    (place_order_loop cfg1 exchanges1 venue_always_err lat0 "BTC/USDT" "sell"
        "limit" 1 (some 100) (some "binance") fuel attempt st_zero
        (some rs_at_max)).2.2.2 = fuel + 1 := by
  induction fuel generalizing attempt with
  | zero =>
    rw [place_order_loop, place_order_err_step_eval]
    exact ⟨rfl, rfl⟩
  | succ f ih =>
    rw [place_order_loop, place_order_err_step_eval]
    refine ⟨(ih (attempt + 1)).1, ?_⟩
    dsimp only
    rw [(ih (attempt + 1)).2]

lemma cancel_order_err_all (fuel attempt : ℕ) :
    (cancel_order_loop cfg1 exchanges1 cancel_always_err "BTC/USDT" "o1"
        (some "binance") fuel attempt st_zero).1 = CancelOutcome.out_of_fuel ∧
    (cancel_order_loop cfg1 exchanges1 cancel_always_err "BTC/USDT" "o1"
        (some "binance") fuel attempt st_zero).2.2 = fuel + 1 := by
  induction fuel generalizing attempt with
  | zero => exact ⟨rfl, rfl⟩
  | succ f ih =>
    rw [show cancel_order_loop cfg1 exchanges1 cancel_always_err "BTC/USDT" "o1"
        (some "binance") (f + 1) attempt st_zero =
        ((cancel_order_loop cfg1 exchanges1 cancel_always_err "BTC/USDT" "o1"
            (some "binance") f (attempt + 1) st_zero).1,
         (cancel_order_loop cfg1 exchanges1 cancel_always_err "BTC/USDT" "o1"
            (some "binance") f (attempt + 1) st_zero).2.1,
         (cancel_order_loop cfg1 exchanges1 cancel_always_err "BTC/USDT" "o1"
            (some "binance") f (attempt + 1) st_zero).2.2 + 1) from rfl]
    refine ⟨(ih (attempt + 1)).1, ?_⟩
    dsimp only
    rw [(ih (attempt + 1)).2]

/-! ### C2 -/

/-- Claim C2 fails on the code: with `retry_attempts = 3` and a venue
that raises on every attempt, both `place_order` and `cancel_order` have
made `fuel + 1` venue calls for EVERY fuel bound and still not returned
(the recursion re-enters with `self.retry_attempts` undecremented, so the
retry count is unbounded and `ExecutionFailed` is never reached). -/
theorem retry_count_unbounded :
    cfg1.retry_attempts = 3 ∧
    ∀ fuel attempt : ℕ,
      (place_order_loop cfg1 exchanges1 venue_always_err lat0 "BTC/USDT" "sell"
          "limit" 1 (some 100) (some "binance") fuel attempt st_zero
          (some rs_at_max)).1 = PlaceOutcome.out_of_fuel ∧
      (place_order_loop cfg1 exchanges1 venue_always_err lat0 "BTC/USDT" "sell"
          "limit" 1 (some 100) (some "binance") fuel attempt st_zero
          (some rs_at_max)).2.2.2 = fuel + 1 ∧
      (cancel_order_loop cfg1 exchanges1 cancel_always_err "BTC/USDT" "o1"
          (some "binance") fuel attempt st_zero).1 = CancelOutcome.out_of_fuel ∧
      (cancel_order_loop cfg1 exchanges1 cancel_always_err "BTC/USDT" "o1"
          (some "binance") fuel attempt st_zero).2.2 = fuel + 1 :=
  ⟨rfl, fun fuel attempt =>
    ⟨(place_order_err_all fuel attempt).1, (place_order_err_all fuel attempt).2,
     (cancel_order_err_all fuel attempt).1, (cancel_order_err_all fuel attempt).2⟩⟩

end UltraMM
